import Mathlib

/-!
Shallow embedding of the kitties pallet (src/pallets/template/src/lib.rs).

Storage:
  CountForKitties : u64 (ValueQuery, default 0)
  Kitties         : map [u8;16] -> Kitty
  KittiesOwned    : map AccountId -> BoundedVec<[u8;16], MaxKittiesOwned> (ValueQuery, default [])

We model bytes as Nat, a dna ([u8;16]) as a list of bytes, account ids as Nat,
and the storage as an explicit state record threaded through the operations.
Each operation returns its result, the updated state, and the list of events
it deposited during the call.
-/

namespace KittiesPallet

/-- A dna value, [u8; 16] in the source. -/
abbrev Dna := List Nat

/-- An account identity (T::AccountId in the source). -/
abbrev AccountId := Nat

/-- The Gender enum of the pallet. -/
inductive Gender where
  | Male
  | Female
  deriving DecidableEq, Repr

/-- The Kitty struct: dna, optional price (balance modelled as Nat), gender, owner. -/
structure Kitty where
  dna : Dna
  price : Option Nat
  gender : Gender
  owner : AccountId
  deriving DecidableEq, Repr

/-- The pallet's Error enum. -/
inductive KittyError where
  | TooManyOwned
  | DuplicateKitty
  | Overflow
  deriving DecidableEq, Repr

/-- Dispatch-level errors: BadOrigin from ensure signed, or a pallet module error. -/
inductive DispatchError where
  | BadOrigin
  | Module (e : KittyError)
  deriving DecidableEq, Repr

/-- The pallet's Event enum. -/
inductive Event where
  | Created (kitty : Dna) (owner : AccountId)
  deriving DecidableEq, Repr

/-- frame_system RawOrigin: root, a signed account, or none. -/
inductive Origin where
  | Root
  | Signed (a : AccountId)
  | NoneOrigin
  deriving DecidableEq, Repr

/-- Result of the mint helper: Result<[u8;16], DispatchError>. -/
inductive MintResult where
  | ok (dna : Dna)
  | err (e : DispatchError)
  deriving DecidableEq, Repr

/-- Whether a mint result is the success variant. -/
def MintResult.isOk : MintResult → Bool
  | .ok _ => true
  | .err _ => false

/-- Result of the create_kitty dispatchable: DispatchResult = Result<(), DispatchError>. -/
inductive DispatchResult where
  | ok
  | err (e : DispatchError)
  deriving DecidableEq, Repr

/-- The pallet's storage: CountForKitties, Kitties (as an association list keyed by
dna, most recent insert first), and KittiesOwned (total map with default `[]`,
matching ValueQuery). -/
structure RegistryState where
  countForKitties : Nat
  kitties : List (Dna × Kitty)
  kittiesOwned : AccountId → List Dna

/-- The implicit initial storage: counter zero, both maps empty. -/
def emptyState : RegistryState :=
  { countForKitties := 0, kitties := [], kittiesOwned := fun _ => [] }

/-- Largest value of the u64 counter. -/
def u64MAX : Nat := 2 ^ 64 - 1

/-- u64::checked_add on values representable in a u64. -/
def checkedAdd (a b : Nat) : Option Nat :=
  if a + b ≤ u64MAX then some (a + b) else none

/-- StorageMap::contains_key for the Kitties map. -/
def containsKey (m : List (Dna × Kitty)) (k : Dna) : Bool :=
  m.any fun p => p.1 == k

/-- StorageMap::get for the Kitties map (first matching key wins). -/
def lookupKV : List (Dna × Kitty) → Dna → Option Kitty
  | [], _ => none
  | (k', v) :: rest, k => if k' == k then some v else lookupKV rest k

/-- Drop every entry with the given key. -/
def eraseKey (m : List (Dna × Kitty)) (k : Dna) : List (Dna × Kitty) :=
  m.filter fun p => !(p.1 == k)

/-- StorageMap::insert for the Kitties map: overwrite any entry at the key. -/
def insertKV (m : List (Dna × Kitty)) (k : Dna) (v : Kitty) : List (Dna × Kitty) :=
  (k, v) :: eraseKey m k

/-- BoundedVec::try_push via StorageMap::try_append: append if the bound allows. -/
def tryAppend (maxOwned : Nat) (xs : List Dna) (x : Dna) : Option (List Dna) :=
  if xs.length + 1 ≤ maxOwned then some (xs ++ [x]) else none

/-- Pallet::mint. Checks duplicate dna, counter overflow, then owner capacity;
on success inserts the kitty, appends to the owner's list, stores the new count,
and deposits the Created event. Returns the result, the updated storage, and the
events deposited by this call. -/
def mint (maxOwned : Nat) (owner : AccountId) (dna : Dna) (gender : Gender)
    (s : RegistryState) : MintResult × RegistryState × List Event :=
  let kitty : Kitty := { dna := dna, price := none, gender := gender, owner := owner }
  if containsKey s.kitties kitty.dna then
    (.err (.Module .DuplicateKitty), s, [])
  else
    match checkedAdd s.countForKitties 1 with
    | none => (.err (.Module .Overflow), s, [])
    | some newCount =>
      match tryAppend maxOwned (s.kittiesOwned owner) kitty.dna with
      | none => (.err (.Module .TooManyOwned), s, [])
      | some newOwned =>
        (.ok dna,
         { countForKitties := newCount
           kitties := insertKV s.kitties kitty.dna kitty
           kittiesOwned := fun a => if a == owner then newOwned else s.kittiesOwned a },
         [Event.Created dna owner])

/-- The environment consumed by gen_dna: the pallet's randomness source (keyed by
a domain tag), the current extrinsic index (an Option, as in frame_system), the
current block number, and the blake2_128 hasher as an opaque byte function. -/
structure DnaEnv where
  randomness : List Nat → List Nat
  extrinsicIndex : Option Nat
  blockNumber : Nat
  blake2_128 : List Nat → List Nat

/-- The bytes of the b"dna" domain tag passed to the randomness source. -/
def dnaTag : List Nat := [100, 110, 97]

/-- SCALE encoding of a u32, little endian. -/
def encodeU32 (n : Nat) : List Nat :=
  [n % 256, n / 2 ^ 8 % 256, n / 2 ^ 16 % 256, n / 2 ^ 24 % 256]

/-- SCALE encoding of the (random, extrinsic_index, block_number) tuple:
the concatenation of the component encodings (the hash encodes as its raw
bytes; the two indices as u32). -/
def encodePayload (random : List Nat) (extrinsicIndex : Nat) (blockNumber : Nat) : List Nat :=
  random ++ encodeU32 extrinsicIndex ++ encodeU32 blockNumber

/-- Pallet::gen_dna: hash the encoded (randomness, extrinsic index defaulted to 0,
block number) payload with blake2_128; the digest is the dna, and the parity of
its first byte picks the gender. -/
def gen_dna (env : DnaEnv) : Dna × Gender :=
  let random := env.randomness dnaTag
  let encoded_payload := encodePayload random (env.extrinsicIndex.getD 0) env.blockNumber
  let hash := env.blake2_128 encoded_payload
  if hash.headD 0 % 2 == 0 then
    (hash, Gender.Male)
  else
    (hash, Gender.Female)

/-- frame_system::ensure_signed: succeeds exactly on a Signed origin. -/
def ensure_signed : Origin → Except DispatchError AccountId
  | .Signed a => .ok a
  | _ => .error .BadOrigin

/-- Pallet::create_kitty: resolve the signed origin, generate dna and gender,
call mint, and discard the dna on success. -/
def create_kitty (maxOwned : Nat) (env : DnaEnv) (origin : Origin)
    (s : RegistryState) : DispatchResult × RegistryState × List Event :=
  match ensure_signed origin with
  | .error e => (.err e, s, [])
  | .ok sender =>
    let d := gen_dna env
    let r := mint maxOwned sender d.1 d.2 s
    (match r.1 with
     | .ok _ => DispatchResult.ok
     | .err e => DispatchResult.err e,
     r.2.1, r.2.2)

/-- States reachable from the empty storage by any sequence of mint calls. -/
inductive Reachable (maxOwned : Nat) : RegistryState → Prop where
  | init : Reachable maxOwned emptyState
  | step (owner : AccountId) (dna : Dna) (gender : Gender) {s : RegistryState} :
      Reachable maxOwned s →
      Reachable maxOwned (mint maxOwned owner dna gender s).2.1

/-- Run a list of mint calls in order from a state; returns the final state and
the number of calls that succeeded. -/
def runMints (maxOwned : Nat) : List (AccountId × Dna × Gender) → RegistryState →
    RegistryState × Nat
  | [], s => (s, 0)
  | (owner, dna, gender) :: rest, s =>
    let r := mint maxOwned owner dna gender s
    let rr := runMints maxOwned rest r.2.1
    (rr.1, (if r.1.isOk then 1 else 0) + rr.2)

/-- A concrete gen_dna environment used for witnesses. -/
def testEnv : DnaEnv :=
  { randomness := fun _ => [1, 2]
    extrinsicIndex := none
    blockNumber := 3
    blake2_128 := fun l => l.length % 256 :: List.replicate 15 0 }

/-- A concrete state in which account 0 owns kitty [1] and the counter is 1. -/
def fullState : RegistryState :=
  { countForKitties := 1
    kitties := [([1], { dna := [1], price := none, gender := Gender.Male, owner := 0 })]
    kittiesOwned := fun a => if a == 0 then [[1]] else [] }

/-- A concrete state whose counter sits at the u64 maximum. -/
def maxCountState : RegistryState :=
  { countForKitties := u64MAX, kitties := [], kittiesOwned := fun _ => [] }

/-! ### Basic lemmas about the association-list map -/

theorem eraseKey_of_not_contains (m : List (Dna × Kitty)) (k : Dna)
    (h : containsKey m k = false) : eraseKey m k = m := by
  induction m with
  | nil => rfl
  | cons p rest ih =>
    simp only [containsKey, List.any_cons, Bool.or_eq_false_iff] at h
    simp only [containsKey] at ih
    simp [eraseKey, List.filter_cons, h.1]
    simpa [eraseKey] using ih h.2

theorem lookupKV_eraseKey_ne (m : List (Dna × Kitty)) (k k' : Dna) (h : k ≠ k') :
    lookupKV (eraseKey m k) k' = lookupKV m k' := by
  induction m with
  | nil => rfl
  | cons p rest ih =>
    obtain ⟨pk, pv⟩ := p
    by_cases hpk : pk = k
    · have he : eraseKey ((pk, pv) :: rest) k = eraseKey rest k := by
        simp [eraseKey, List.filter_cons, hpk]
      have hne : pk ≠ k' := fun hh => h (hpk.symm.trans hh)
      rw [he, ih]
      simp [lookupKV, hne]
    · have he : eraseKey ((pk, pv) :: rest) k = (pk, pv) :: eraseKey rest k := by
        simp [eraseKey, List.filter_cons, hpk]
      rw [he]
      by_cases hpk' : pk = k'
      · simp [lookupKV, hpk']
      · simp [lookupKV, hpk', ih]

theorem lookupKV_insert_self (m : List (Dna × Kitty)) (k : Dna) (v : Kitty) :
    lookupKV (insertKV m k v) k = some v := by
  simp [insertKV, lookupKV]

theorem lookupKV_insert_ne (m : List (Dna × Kitty)) (k k' : Dna) (v : Kitty)
    (h : k ≠ k') : lookupKV (insertKV m k v) k' = lookupKV m k' := by
  simp [insertKV, lookupKV, h]
  exact lookupKV_eraseKey_ne m k k' h

theorem length_insertKV_of_not_contains (m : List (Dna × Kitty)) (k : Dna) (v : Kitty)
    (h : containsKey m k = false) :
    (insertKV m k v).length = m.length + 1 := by
  simp [insertKV, eraseKey_of_not_contains m k h]

/-! ### Characterization of mint -/

theorem mint_ok_eq (maxOwned : Nat) (owner : AccountId) (dna : Dna) (gender : Gender)
    (s : RegistryState) (h1 : containsKey s.kitties dna = false)
    (h2 : s.countForKitties < u64MAX)
    (h3 : (s.kittiesOwned owner).length < maxOwned) :
    mint maxOwned owner dna gender s =
      (.ok dna,
       { countForKitties := s.countForKitties + 1
         kitties := insertKV s.kitties dna
           { dna := dna, price := none, gender := gender, owner := owner }
         kittiesOwned := fun a =>
           if a == owner then s.kittiesOwned owner ++ [dna] else s.kittiesOwned a },
       [Event.Created dna owner]) := by
  have h2' : s.countForKitties + 1 ≤ u64MAX := h2
  have h3' : (s.kittiesOwned owner).length + 1 ≤ maxOwned := h3
  simp [mint, checkedAdd, tryAppend, h1, h2', h3']

theorem mint_dup_eq (maxOwned : Nat) (owner : AccountId) (dna : Dna) (gender : Gender)
    (s : RegistryState) (h : containsKey s.kitties dna = true) :
    mint maxOwned owner dna gender s = (.err (.Module .DuplicateKitty), s, []) := by
  simp [mint, h]

theorem mint_overflow_eq (maxOwned : Nat) (owner : AccountId) (dna : Dna) (gender : Gender)
    (s : RegistryState) (h1 : containsKey s.kitties dna = false)
    (h2 : u64MAX ≤ s.countForKitties) :
    mint maxOwned owner dna gender s = (.err (.Module .Overflow), s, []) := by
  have h2' : ¬ (s.countForKitties + 1 ≤ u64MAX) := by omega
  simp [mint, checkedAdd, h1, h2']

theorem mint_capacity_eq (maxOwned : Nat) (owner : AccountId) (dna : Dna) (gender : Gender)
    (s : RegistryState) (h1 : containsKey s.kitties dna = false)
    (h2 : s.countForKitties < u64MAX)
    (h3 : maxOwned ≤ (s.kittiesOwned owner).length) :
    mint maxOwned owner dna gender s = (.err (.Module .TooManyOwned), s, []) := by
  have h2' : s.countForKitties + 1 ≤ u64MAX := h2
  have h3' : ¬ ((s.kittiesOwned owner).length + 1 ≤ maxOwned) := by omega
  simp [mint, checkedAdd, tryAppend, h1, h2', h3']

/-- Every call to mint either satisfies all three preconditions and commits, or
fails with a module error and returns the state untouched with no events. -/
theorem mint_ok_or_err (maxOwned : Nat) (owner : AccountId) (dna : Dna) (gender : Gender)
    (s : RegistryState) :
    (containsKey s.kitties dna = false ∧ s.countForKitties < u64MAX ∧
       (s.kittiesOwned owner).length < maxOwned ∧
       mint maxOwned owner dna gender s =
         (.ok dna,
          { countForKitties := s.countForKitties + 1
            kitties := insertKV s.kitties dna
              { dna := dna, price := none, gender := gender, owner := owner }
            kittiesOwned := fun a =>
              if a == owner then s.kittiesOwned owner ++ [dna] else s.kittiesOwned a },
          [Event.Created dna owner])) ∨
    (∃ e, mint maxOwned owner dna gender s = (.err (.Module e), s, [])) := by
  by_cases hc : containsKey s.kitties dna = true
  · exact Or.inr ⟨.DuplicateKitty, mint_dup_eq maxOwned owner dna gender s hc⟩
  · have hc' : containsKey s.kitties dna = false := by
      cases h : containsKey s.kitties dna
      · rfl
      · exact absurd h hc
    by_cases h2 : s.countForKitties < u64MAX
    · by_cases h3 : (s.kittiesOwned owner).length < maxOwned
      · exact Or.inl ⟨hc', h2, h3, mint_ok_eq maxOwned owner dna gender s hc' h2 h3⟩
      · exact Or.inr ⟨.TooManyOwned,
          mint_capacity_eq maxOwned owner dna gender s hc' h2 (by omega)⟩
    · exact Or.inr ⟨.Overflow,
        mint_overflow_eq maxOwned owner dna gender s hc' (by omega)⟩

/-- A mint call whose result component is an error returns the state untouched
and deposits no event. -/
theorem mint_err_eq (maxOwned : Nat) (owner : AccountId) (dna : Dna) (gender : Gender)
    (s : RegistryState) (e : DispatchError)
    (h : (mint maxOwned owner dna gender s).1 = .err e) :
    mint maxOwned owner dna gender s = (.err e, s, []) := by
  rcases mint_ok_or_err maxOwned owner dna gender s with ⟨_, _, _, heq⟩ | ⟨e', heq⟩
  · rw [heq] at h
    exact absurd h (by simp)
  · rw [heq] at h ⊢
    simp only [Prod.fst] at h
    rw [show DispatchError.Module e' = e by injection h]

/-- The counter grows by one exactly on successful mints. -/
theorem mint_count (maxOwned : Nat) (owner : AccountId) (dna : Dna) (gender : Gender)
    (s : RegistryState) :
    (mint maxOwned owner dna gender s).2.1.countForKitties =
      s.countForKitties +
        (if (mint maxOwned owner dna gender s).1.isOk then 1 else 0) := by
  rcases mint_ok_or_err maxOwned owner dna gender s with ⟨_, _, _, heq⟩ | ⟨e', heq⟩ <;>
    rw [heq] <;> simp [MintResult.isOk]

/-- The Kitties map grows by one entry exactly on successful mints. -/
theorem mint_length (maxOwned : Nat) (owner : AccountId) (dna : Dna) (gender : Gender)
    (s : RegistryState) :
    (mint maxOwned owner dna gender s).2.1.kitties.length =
      s.kitties.length +
        (if (mint maxOwned owner dna gender s).1.isOk then 1 else 0) := by
  rcases mint_ok_or_err maxOwned owner dna gender s with ⟨h1, _, _, heq⟩ | ⟨e', heq⟩ <;>
    rw [heq]
  · simp [MintResult.isOk, length_insertKV_of_not_contains s.kitties dna _ h1]
  · simp [MintResult.isOk]

/-- A mint call keeps every owned list within the bound. -/
theorem mint_owned_le (maxOwned : Nat) (owner : AccountId) (dna : Dna) (gender : Gender)
    (s : RegistryState) (a : AccountId)
    (ha : (s.kittiesOwned a).length ≤ maxOwned) :
    ((mint maxOwned owner dna gender s).2.1.kittiesOwned a).length ≤ maxOwned := by
  rcases mint_ok_or_err maxOwned owner dna gender s with ⟨_, _, h3, heq⟩ | ⟨e', heq⟩ <;>
    rw [heq]
  · by_cases hao : a = owner
    · subst hao
      simp
      omega
    · simp [hao]
      exact ha
  · exact ha

/-- Running a list of mint calls adds exactly the number of successes to the
counter and to the size of the Kitties map. -/
theorem runMints_growth (maxOwned : Nat) (calls : List (AccountId × Dna × Gender))
    (s : RegistryState) :
    (runMints maxOwned calls s).1.countForKitties =
      s.countForKitties + (runMints maxOwned calls s).2 ∧
    (runMints maxOwned calls s).1.kitties.length =
      s.kitties.length + (runMints maxOwned calls s).2 := by
  induction calls generalizing s with
  | nil => simp [runMints]
  | cons c rest ih =>
    obtain ⟨owner, dna, gender⟩ := c
    have hc := mint_count maxOwned owner dna gender s
    have hl := mint_length maxOwned owner dna gender s
    have hrec := ih (mint maxOwned owner dna gender s).2.1
    simp only [runMints]
    cases hok : (mint maxOwned owner dna gender s).1.isOk <;>
      simp only [hok, if_true, if_false] at hc hl ⊢ <;> omega

/-! ### Claim theorems -/

/-- C1: when the dna is fresh, the counter is below its maximum, and the owner
holds fewer than MaxOwned kitties, mint succeeds returning the dna, stores a
kitty with that dna, owner and gender and no price at key dna, appends the dna
to the owner's list, and increments the counter by one. -/
theorem mint_success_postconditions (maxOwned : Nat) (owner : AccountId) (dna : Dna)
    (gender : Gender) (s : RegistryState)
    (h1 : containsKey s.kitties dna = false)
    (h2 : s.countForKitties < u64MAX)
    (h3 : (s.kittiesOwned owner).length < maxOwned) :
    (mint maxOwned owner dna gender s).1 = .ok dna ∧
    lookupKV (mint maxOwned owner dna gender s).2.1.kitties dna =
      some { dna := dna, price := none, gender := gender, owner := owner } ∧
    (mint maxOwned owner dna gender s).2.1.kittiesOwned owner =
      s.kittiesOwned owner ++ [dna] ∧
    (mint maxOwned owner dna gender s).2.1.countForKitties =
      s.countForKitties + 1 := by
  rw [mint_ok_eq maxOwned owner dna gender s h1 h2 h3]
  refine ⟨rfl, lookupKV_insert_self _ _ _, ?_, rfl⟩
  simp

theorem mint_success_postconditions_witness :
    containsKey emptyState.kitties [1] = false ∧
    emptyState.countForKitties < u64MAX ∧
    (emptyState.kittiesOwned 0).length < 1 ∧
    ((mint 1 0 [1] Gender.Male emptyState).1 = .ok [1] ∧
     lookupKV (mint 1 0 [1] Gender.Male emptyState).2.1.kitties [1] =
       some { dna := [1], price := none, gender := Gender.Male, owner := 0 } ∧
     (mint 1 0 [1] Gender.Male emptyState).2.1.kittiesOwned 0 =
       emptyState.kittiesOwned 0 ++ [[1]] ∧
     (mint 1 0 [1] Gender.Male emptyState).2.1.countForKitties =
       emptyState.countForKitties + 1) :=
  ⟨by decide, by decide, by decide,
   mint_success_postconditions 1 0 [1] Gender.Male emptyState
     (by decide) (by decide) (by decide)⟩

/-- C2: a mint call (or a create_kitty call) that returns an error leaves the
whole registry state exactly as it was and deposits no event; repeating the
failing mint any number of times keeps the state fixed and keeps returning the
same error. -/
theorem mint_failure_no_mutation (maxOwned : Nat) (owner : AccountId) (dna : Dna)
    (gender : Gender) (env : DnaEnv) (origin : Origin) (s : RegistryState) :
    (∀ e, (mint maxOwned owner dna gender s).1 = .err e →
      mint maxOwned owner dna gender s = (.err e, s, []) ∧
      ∀ n, (fun st => (mint maxOwned owner dna gender st).2.1)^[n] s = s ∧
        mint maxOwned owner dna gender
          ((fun st => (mint maxOwned owner dna gender st).2.1)^[n] s) =
            (.err e, s, [])) ∧
    (∀ e, (create_kitty maxOwned env origin s).1 = .err e →
      create_kitty maxOwned env origin s = (.err e, s, [])) := by
  constructor
  · intro e h
    have heq := mint_err_eq maxOwned owner dna gender s e h
    have hfix : (fun st => (mint maxOwned owner dna gender st).2.1) s = s := by
      show (mint maxOwned owner dna gender s).2.1 = s
      rw [heq]
    refine ⟨heq, fun n => ?_⟩
    rw [Function.iterate_fixed hfix n]
    exact ⟨rfl, heq⟩
  · intro e h
    cases origin with
    | Signed a =>
      rcases mint_ok_or_err maxOwned a (gen_dna env).1 (gen_dna env).2 s with
        ⟨_, _, _, heq⟩ | ⟨e', heq⟩
      · rw [show create_kitty maxOwned env (Origin.Signed a) s = (.ok, (mint maxOwned a
          (gen_dna env).1 (gen_dna env).2 s).2.1, (mint maxOwned a (gen_dna env).1
          (gen_dna env).2 s).2.2) by simp [create_kitty, ensure_signed, heq]] at h
        exact absurd h (by simp)
      · have : create_kitty maxOwned env (Origin.Signed a) s =
            (.err (.Module e'), s, []) := by
          simp [create_kitty, ensure_signed, heq]
        rw [this] at h ⊢
        simp only [Prod.fst] at h
        rw [show DispatchError.Module e' = e by injection h]
    | Root =>
      have : create_kitty maxOwned env Origin.Root s = (.err .BadOrigin, s, []) := by
        simp [create_kitty, ensure_signed]
      rw [this] at h ⊢
      simp only [Prod.fst] at h
      rw [show DispatchError.BadOrigin = e by injection h]
    | NoneOrigin =>
      have : create_kitty maxOwned env Origin.NoneOrigin s = (.err .BadOrigin, s, []) := by
        simp [create_kitty, ensure_signed]
      rw [this] at h ⊢
      simp only [Prod.fst] at h
      rw [show DispatchError.BadOrigin = e by injection h]

theorem mint_failure_no_mutation_witness :
    (mint 0 0 [1] Gender.Male emptyState).1 = .err (.Module .TooManyOwned) ∧
    mint 0 0 [1] Gender.Male emptyState =
      (.err (.Module .TooManyOwned), emptyState, []) ∧
    (fun st => (mint 0 0 [1] Gender.Male st).2.1)^[3] emptyState = emptyState ∧
    (create_kitty 0 testEnv Origin.Root emptyState).1 = .err .BadOrigin ∧
    create_kitty 0 testEnv Origin.Root emptyState = (.err .BadOrigin, emptyState, []) := by
  have h := mint_failure_no_mutation 0 0 [1] Gender.Male testEnv Origin.Root emptyState
  have h1 := h.1 (.Module .TooManyOwned) (by decide)
  have h2 := h.2 .BadOrigin (by decide)
  exact ⟨by decide, h1.1, (h1.2 3).1, by decide, h2⟩

/-- C3: in every state reachable from the empty registry by mint calls the
counter equals the number of entries of the Kitties map, and a run of any list
of mint calls from the empty registry ends with the counter and the map size
both equal to the number of successful calls. -/
theorem count_matches_map_size (maxOwned : Nat) :
    (∀ s, Reachable maxOwned s → s.countForKitties = s.kitties.length) ∧
    (∀ calls : List (AccountId × Dna × Gender),
      (runMints maxOwned calls emptyState).1.countForKitties =
        (runMints maxOwned calls emptyState).2 ∧
      (runMints maxOwned calls emptyState).1.kitties.length =
        (runMints maxOwned calls emptyState).2) := by
  constructor
  · intro s h
    induction h with
    | init => rfl
    | step owner dna gender hs ih =>
      rw [mint_count, mint_length, ih]
  · intro calls
    have h := runMints_growth maxOwned calls emptyState
    have h0 : emptyState.countForKitties = 0 := rfl
    have h0' : emptyState.kitties.length = 0 := rfl
    omega

theorem count_matches_map_size_witness :
    emptyState.countForKitties = emptyState.kitties.length ∧
    (runMints 1 [(0, [1], Gender.Male), (0, [2], Gender.Female)] emptyState).1.countForKitties =
      (runMints 1 [(0, [1], Gender.Male), (0, [2], Gender.Female)] emptyState).2 ∧
    (runMints 1 [(0, [1], Gender.Male), (0, [2], Gender.Female)] emptyState).1.kitties.length =
      (runMints 1 [(0, [1], Gender.Male), (0, [2], Gender.Female)] emptyState).2 :=
  ⟨(count_matches_map_size 1).1 emptyState Reachable.init,
   ((count_matches_map_size 1).2 [(0, [1], Gender.Male), (0, [2], Gender.Female)]).1,
   ((count_matches_map_size 1).2 [(0, [1], Gender.Male), (0, [2], Gender.Female)]).2⟩

/-- C4: in every reachable state no owner's list exceeds MaxOwned; and an owner
already holding exactly MaxOwned kitties, with a fresh dna and a non-maximal
counter, gets TooManyOwned from mint, with the counter and both maps
untouched. -/
theorem owned_capacity_invariant (maxOwned : Nat) :
    (∀ s a, Reachable maxOwned s → (s.kittiesOwned a).length ≤ maxOwned) ∧
    (∀ (owner : AccountId) (dna : Dna) (gender : Gender) (s : RegistryState),
      (s.kittiesOwned owner).length = maxOwned →
      containsKey s.kitties dna = false →
      s.countForKitties < u64MAX →
      mint maxOwned owner dna gender s = (.err (.Module .TooManyOwned), s, [])) := by
  constructor
  · intro s a h
    induction h with
    | init => exact Nat.zero_le maxOwned
    | step owner dna gender hs ih =>
      exact mint_owned_le maxOwned owner dna gender _ a ih
  · intro owner dna gender s hlen hd hc
    exact mint_capacity_eq maxOwned owner dna gender s hd hc (le_of_eq hlen.symm)

theorem owned_capacity_invariant_witness :
    (emptyState.kittiesOwned 0).length ≤ 1 ∧
    ((mint 1 0 [1] Gender.Male emptyState).2.1.kittiesOwned 0).length ≤ 1 ∧
    (((mint 1 0 [1] Gender.Male emptyState).2.1.kittiesOwned 0).length = 1 ∧
     containsKey (mint 1 0 [1] Gender.Male emptyState).2.1.kitties [2] = false ∧
     (mint 1 0 [1] Gender.Male emptyState).2.1.countForKitties < u64MAX ∧
     mint 1 0 [2] Gender.Female (mint 1 0 [1] Gender.Male emptyState).2.1 =
       (.err (.Module .TooManyOwned), (mint 1 0 [1] Gender.Male emptyState).2.1, [])) :=
  ⟨(owned_capacity_invariant 1).1 emptyState 0 Reachable.init,
   (owned_capacity_invariant 1).1 _ 0 (Reachable.step 0 [1] Gender.Male Reachable.init),
   by decide, by decide, by decide,
   (owned_capacity_invariant 1).2 0 [2] Gender.Female _
     (by decide) (by decide) (by decide)⟩

/-- C5: the precondition checks run in the order duplicate dna, counter
overflow, owner capacity, and the first failing check fixes the error; in
particular a duplicate dna combined with a full owner yields DuplicateKitty,
not TooManyOwned. -/
theorem mint_check_order (maxOwned : Nat) (owner : AccountId) (dna : Dna)
    (gender : Gender) (s : RegistryState) :
    (containsKey s.kitties dna = true →
      (mint maxOwned owner dna gender s).1 = .err (.Module .DuplicateKitty)) ∧
    (containsKey s.kitties dna = false → u64MAX ≤ s.countForKitties →
      (mint maxOwned owner dna gender s).1 = .err (.Module .Overflow)) ∧
    (containsKey s.kitties dna = false → s.countForKitties < u64MAX →
      maxOwned ≤ (s.kittiesOwned owner).length →
      (mint maxOwned owner dna gender s).1 = .err (.Module .TooManyOwned)) ∧
    (containsKey s.kitties dna = true → (s.kittiesOwned owner).length = maxOwned →
      (mint maxOwned owner dna gender s).1 = .err (.Module .DuplicateKitty)) := by
  refine ⟨fun h1 => ?_, fun h1 h2 => ?_, fun h1 h2 h3 => ?_, fun h1 _ => ?_⟩
  · rw [mint_dup_eq maxOwned owner dna gender s h1]
  · rw [mint_overflow_eq maxOwned owner dna gender s h1 h2]
  · rw [mint_capacity_eq maxOwned owner dna gender s h1 h2 h3]
  · rw [mint_dup_eq maxOwned owner dna gender s h1]

theorem mint_check_order_witness :
    (containsKey fullState.kitties [1] = true ∧
     (fullState.kittiesOwned 0).length = 1 ∧
     (mint 1 0 [1] Gender.Male fullState).1 = .err (.Module .DuplicateKitty)) ∧
    (containsKey maxCountState.kitties [1] = false ∧
     u64MAX ≤ maxCountState.countForKitties ∧
     (mint 1 0 [1] Gender.Male maxCountState).1 = .err (.Module .Overflow)) ∧
    (containsKey fullState.kitties [2] = false ∧
     fullState.countForKitties < u64MAX ∧
     1 ≤ (fullState.kittiesOwned 0).length ∧
     (mint 1 0 [2] Gender.Male fullState).1 = .err (.Module .TooManyOwned)) :=
  ⟨⟨by decide, by decide,
    (mint_check_order 1 0 [1] Gender.Male fullState).2.2.2 (by decide) (by decide)⟩,
   ⟨by decide, by decide,
    (mint_check_order 1 0 [1] Gender.Male maxCountState).2.1 (by decide) (by decide)⟩,
   ⟨by decide, by decide, by decide,
    (mint_check_order 1 0 [2] Gender.Male fullState).2.2.1
      (by decide) (by decide) (by decide)⟩⟩

/-- C6: with the counter at u64::MAX and a fresh dna, mint fails with Overflow
and the counter and both maps are untouched. -/
theorem counter_overflow_boundary (maxOwned : Nat) (owner : AccountId) (dna : Dna)
    (gender : Gender) (s : RegistryState)
    (hc : s.countForKitties = u64MAX)
    (hd : containsKey s.kitties dna = false) :
    mint maxOwned owner dna gender s = (.err (.Module .Overflow), s, []) :=
  mint_overflow_eq maxOwned owner dna gender s hd (le_of_eq hc.symm)

theorem counter_overflow_boundary_witness :
    maxCountState.countForKitties = u64MAX ∧
    containsKey maxCountState.kitties [1] = false ∧
    mint 5 0 [1] Gender.Male maxCountState =
      (.err (.Module .Overflow), maxCountState, []) :=
  ⟨by decide, by decide,
   counter_overflow_boundary 5 0 [1] Gender.Male maxCountState (by decide) (by decide)⟩

/-- C7: an origin that is not a signed account makes create_kitty fail with
BadOrigin, with the registry state untouched and no event deposited. -/
theorem create_kitty_bad_origin (maxOwned : Nat) (env : DnaEnv) (origin : Origin)
    (s : RegistryState) (h : ∀ a, origin ≠ Origin.Signed a) :
    create_kitty maxOwned env origin s = (.err .BadOrigin, s, []) := by
  cases origin with
  | Root => simp [create_kitty, ensure_signed]
  | Signed a => exact absurd rfl (h a)
  | NoneOrigin => simp [create_kitty, ensure_signed]

theorem create_kitty_bad_origin_witness :
    (∀ a, Origin.Root ≠ Origin.Signed a) ∧
    create_kitty 1 testEnv Origin.Root emptyState = (.err .BadOrigin, emptyState, []) :=
  ⟨fun a => by simp,
   create_kitty_bad_origin 1 testEnv Origin.Root emptyState (fun a => by simp)⟩

/-- C8: gen_dna always returns the blake2_128 digest of the encoded
(entropy for tag "dna", extrinsic index defaulted to zero, block number)
payload as the dna, picks Male exactly when the first byte of the digest is
even, and is deterministic in the entropy and execution context. -/
theorem gen_dna_spec (env : DnaEnv) :
    (gen_dna env).1 =
      env.blake2_128
        (encodePayload (env.randomness dnaTag) (env.extrinsicIndex.getD 0)
          env.blockNumber) ∧
    ((gen_dna env).2 = Gender.Male ↔ (gen_dna env).1.headD 0 % 2 = 0) ∧
    (∀ env' : DnaEnv, env'.randomness dnaTag = env.randomness dnaTag →
      env'.extrinsicIndex = env.extrinsicIndex →
      env'.blockNumber = env.blockNumber →
      env'.blake2_128 = env.blake2_128 →
      gen_dna env' = gen_dna env) := by
  refine ⟨?_, ?_, ?_⟩
  · simp only [gen_dna]
    split <;> rfl
  · simp only [gen_dna]
    split <;> rename_i hcond
    · simp only [beq_iff_eq, List.headD_eq_head?] at hcond
      simp [hcond]
    · simp only [beq_iff_eq, List.headD_eq_head?] at hcond
      simp only [List.headD_eq_head?]
      simp
      omega
  · intro env' hr hi hb hh
    simp only [gen_dna]
    rw [hr, hi, hb, hh]

theorem gen_dna_spec_witness :
    (gen_dna testEnv).1 =
      testEnv.blake2_128
        (encodePayload (testEnv.randomness dnaTag) (testEnv.extrinsicIndex.getD 0)
          testEnv.blockNumber) ∧
    ((gen_dna testEnv).2 = Gender.Male ↔ (gen_dna testEnv).1.headD 0 % 2 = 0) ∧
    gen_dna testEnv = gen_dna testEnv :=
  ⟨(gen_dna_spec testEnv).1, (gen_dna_spec testEnv).2.1,
   (gen_dna_spec testEnv).2.2 testEnv rfl rfl rfl rfl⟩

/-- C9 counterexample: at a concrete successful call, the store-level mint
itself deposits the Created event — its deposited-event list is the nonempty
[Created [7] 0], refuting the claim that store-level mint performs no
notification emission and leaves it to create_kitty. -/
theorem store_mint_emits_cex :
    (mint 1 0 [7] Gender.Female emptyState).1 = .ok [7] ∧
    (mint 1 0 [7] Gender.Female emptyState).2.2 = [Event.Created [7] 0] := by
  constructor <;> decide

/-- C9 amended: mint itself deposits exactly the Created event on success and
nothing on failure; create_kitty deposits no event of its own — on a signed
origin its deposited events are exactly those of the underlying mint call, and
on any other origin they are empty. -/
theorem mint_emits_created_event (maxOwned : Nat) (owner : AccountId) (dna : Dna)
    (gender : Gender) (env : DnaEnv) (origin : Origin) (s : RegistryState) :
    (mint maxOwned owner dna gender s).2.2 =
      (if (mint maxOwned owner dna gender s).1.isOk
        then [Event.Created dna owner] else []) ∧
    (∀ a, origin = Origin.Signed a →
      (create_kitty maxOwned env origin s).2.2 =
        (mint maxOwned a (gen_dna env).1 (gen_dna env).2 s).2.2) ∧
    ((∀ a, origin ≠ Origin.Signed a) →
      (create_kitty maxOwned env origin s).2.2 = []) := by
  refine ⟨?_, ?_, ?_⟩
  · rcases mint_ok_or_err maxOwned owner dna gender s with ⟨_, _, _, heq⟩ | ⟨e', heq⟩ <;>
      rw [heq] <;> simp [MintResult.isOk]
  · intro a ha
    subst ha
    simp [create_kitty, ensure_signed]
  · intro h
    cases origin with
    | Root => simp [create_kitty, ensure_signed]
    | Signed a => exact absurd rfl (h a)
    | NoneOrigin => simp [create_kitty, ensure_signed]

theorem mint_emits_created_event_witness :
    (mint 1 0 [7] Gender.Female emptyState).2.2 =
      (if (mint 1 0 [7] Gender.Female emptyState).1.isOk
        then [Event.Created [7] 0] else []) ∧
    (create_kitty 1 testEnv (Origin.Signed 4) emptyState).2.2 =
      (mint 1 4 (gen_dna testEnv).1 (gen_dna testEnv).2 emptyState).2.2 ∧
    (create_kitty 1 testEnv Origin.Root emptyState).2.2 = [] := by
  have h := mint_emits_created_event 1 0 [7] Gender.Female testEnv Origin.Root emptyState
  have h' := mint_emits_created_event 1 0 [7] Gender.Female testEnv (Origin.Signed 4)
    emptyState
  exact ⟨h.1, h'.2.1 4 rfl, h.2.2 (fun a => by simp)⟩

/-- C10: a successful mint changes no Kitties entry at a key other than the new
dna, changes no other account's owned list, and changes the owner's list only
by appending the new dna at the tail. -/
theorem mint_frame_conditions (maxOwned : Nat) (owner : AccountId) (dna : Dna)
    (gender : Gender) (s : RegistryState)
    (h1 : containsKey s.kitties dna = false)
    (h2 : s.countForKitties < u64MAX)
    (h3 : (s.kittiesOwned owner).length < maxOwned) :
    (∀ k, k ≠ dna →
      lookupKV (mint maxOwned owner dna gender s).2.1.kitties k =
        lookupKV s.kitties k) ∧
    (∀ a, a ≠ owner →
      (mint maxOwned owner dna gender s).2.1.kittiesOwned a = s.kittiesOwned a) ∧
    (mint maxOwned owner dna gender s).2.1.kittiesOwned owner =
      s.kittiesOwned owner ++ [dna] := by
  rw [mint_ok_eq maxOwned owner dna gender s h1 h2 h3]
  refine ⟨fun k hk => ?_, fun a ha => ?_, ?_⟩
  · exact lookupKV_insert_ne s.kitties dna k _ (fun hh => hk hh.symm)
  · simp [ha]
  · simp

theorem mint_frame_conditions_witness :
    containsKey fullState.kitties [2] = false ∧
    fullState.countForKitties < u64MAX ∧
    (fullState.kittiesOwned 0).length < 2 ∧
    (lookupKV (mint 2 0 [2] Gender.Female fullState).2.1.kitties [1] =
       lookupKV fullState.kitties [1] ∧
     (mint 2 0 [2] Gender.Female fullState).2.1.kittiesOwned 9 =
       fullState.kittiesOwned 9 ∧
     (mint 2 0 [2] Gender.Female fullState).2.1.kittiesOwned 0 =
       fullState.kittiesOwned 0 ++ [[2]]) :=
  ⟨by decide, by decide, by decide,
   (mint_frame_conditions 2 0 [2] Gender.Female fullState
      (by decide) (by decide) (by decide)).1 [1] (by decide),
   (mint_frame_conditions 2 0 [2] Gender.Female fullState
      (by decide) (by decide) (by decide)).2.1 9 (by decide),
   (mint_frame_conditions 2 0 [2] Gender.Female fullState
      (by decide) (by decide) (by decide)).2.2⟩

end KittiesPallet
